import Mathlib

/-!
Shallow embedding of the cold-room monitoring engine of this repository
(`delta.py`, `main5.py`, `main6.py`): the environment analyzer
(`detect_anomaly`, `predict_spoilage`), the bounded-retry sensor reader
(`SensorReader.read` with the DS18B20 override), the manual-entry
persistence path (`add_data` with `send_email_alert`), and the
background scheduler cycle of `main6._background_reader`.

Machine floats of the source are modelled as exact rationals; fallible
Python code is modelled with `Option`/`Except`; the nondeterministic
outside world (hardware reads, SMTP, weather, the database commit) is
passed in as explicit environment values, so every definition is
executable on concrete inputs.
-/

-- The library seals the rational-number field operations against unfolding;
-- the embedding is executable, so re-open them for kernel evaluation of
-- concrete inputs.
attribute [local semireducible] Rat.mul Rat.add Rat.sub Rat.inv

/-- Python truthiness of a number: a float is truthy iff it is nonzero
(the source guards `if external_temp and external_temp > ...`). -/
def pyTruthy (q : ℚ) : Bool := q != 0

/-- Round half to even, as Python `round` and `format(..., ".1f")` do at a tie. -/
def roundHalfEven (x : ℚ) : ℤ :=
  let f := Int.floor x
  let r := x - f
  if r < 1/2 then f
  else if 1/2 < r then f + 1
  else if f % 2 = 0 then f else f + 1

/-- Python `round(x, 1)`: round to one decimal place, ties to even. -/
def round1 (q : ℚ) : ℚ := (roundHalfEven (q * 10) : ℚ) / 10

/-- Python `f"{x:.1f}"`: fixed-point rendering with exactly one decimal digit. -/
def fmt1 (q : ℚ) : String :=
  let r := roundHalfEven (q * 10)
  let m := r.natAbs
  (if r < 0 then "-" else "") ++ toString (m / 10) ++ "." ++ toString (m % 10)

/-- Decimal digits of the fraction `r / d`, with fuel to stay total. -/
def fracDigits : ℕ → ℕ → ℕ → List ℕ
  | 0, _, _ => []
  | _ + 1, 0, _ => []
  | fuel + 1, r, d => ((r * 10) / d) :: fracDigits fuel ((r * 10) % d) d

/-- Python `f"{x}"` on a float holding a terminating decimal: the shortest
decimal expansion, with `.0` appended to integral values (`repr(89.0) = "89.0"`). -/
def pyStr (q : ℚ) : String :=
  let ip := q.num.natAbs / q.den
  let r := q.num.natAbs % q.den
  let ds := fracDigits 30 r q.den
  (if q < 0 then "-" else "") ++ toString ip ++ "." ++
    (if ds.isEmpty then "0" else String.join (ds.map (fun k => toString k)))

/-- Does `pat` occur at the head of `s`? -/
def startsList : List Char → List Char → Bool
  | [], _ => true
  | _ :: _, [] => false
  | p :: ps, c :: cs => p == c && startsList ps cs

/-- Does `pat` occur anywhere inside `s`? -/
def subListIn : List Char → List Char → Bool
  | pat, [] => pat.isEmpty
  | pat, c :: rest => startsList pat (c :: rest) || subListIn pat rest

/-- Substring test on strings. -/
def hasSub (pat s : String) : Bool := subListIn pat.data s.data

/-- The weather-adjusted upper temperature bound of `detect_anomaly`
(`delta.py` 422-428, `main6.py` 159-165): base 4 °C, widened by
`((external_temp - 20) / 5) * 0.1` when a truthy external temperature
exceeds 20 °C. -/
def adjustedTempMax (external_temp : Option ℚ) : ℚ :=
  let temp_strain_allowance : ℚ :=
    match external_temp with
    | some e => if pyTruthy e = true ∧ 20 < e then ((e - 20) / 5) * (1/10) else 0
    | none => 0
  4 + temp_strain_allowance

/-- `detect_anomaly(temperature, humidity, external_temp)` of
`delta.py` 422-433 / `main6.py` 159-170: temperature envelope
`[0, adjustedTempMax]` checked first, then humidity envelope `[90, 95]`;
returns the verdict and the single human-readable reason. -/
def detect_anomaly (temperature humidity : ℚ) (external_temp : Option ℚ) :
    Bool × String :=
  let NORMAL_TEMP_MAX := adjustedTempMax external_temp
  if ¬ ((0:ℚ) ≤ temperature ∧ temperature ≤ NORMAL_TEMP_MAX) then
    (true, "Temperature " ++ pyStr temperature ++
      "°C is out of the acceptable range (" ++ fmt1 0 ++ "°C - " ++
      fmt1 NORMAL_TEMP_MAX ++ "°C).")
  else if ¬ ((90:ℚ) ≤ humidity ∧ humidity ≤ 95) then
    (true, "Humidity " ++ pyStr humidity ++
      "% is out of the acceptable range (" ++ toString (90:ℕ) ++ "% - " ++
      toString (95:ℕ) ++ "%).")
  else
    (false, "Conditions are Normal (Max Temp adjusted to " ++
      fmt1 NORMAL_TEMP_MAX ++ "°C due to weather)")

/-- The accumulator of `predict_spoilage` (`delta.py` 408-417,
`main6.py` 145-154). -/
def spoilage_score (temperature humidity : ℚ) (external_temp : Option ℚ) : ℚ :=
  let risk_score : ℚ := 0
  let risk_score :=
    if 4 < temperature then risk_score + (temperature - 4) * 10 else risk_score
  let risk_score :=
    if temperature < 0 then risk_score + |temperature| * 15 else risk_score
  let risk_score :=
    if 95 < humidity then risk_score + (humidity - 95) * 5 else risk_score
  let risk_score :=
    if humidity < 85 then risk_score + (85 - humidity) * 5 else risk_score
  match external_temp with
  | some e =>
    if pyTruthy e = true ∧ 25 < e then risk_score + (e - 25) * (3/2) else risk_score
  | none => risk_score

/-- `predict_spoilage` risk bucketing (`delta.py` 418-420, `main6.py` 155-157). -/
def predict_spoilage (temperature humidity : ℚ) (external_temp : Option ℚ) :
    String :=
  let risk_score := spoilage_score temperature humidity external_temp
  if 70 < risk_score then "High"
  else if 30 < risk_score then "Medium"
  else "Low"

/-- One hardware acquisition attempt of `SensorReader.read`
(`delta.py` 69-83, `main5.py` 102-118): the DHT access may raise, each of
humidity and temperature may come back null, and the DS18B20 1-Wire read
(`_read_ds18b20_temp`, which swallows its own errors) may or may not yield
a value. -/
structure Attempt where
  raises : Bool
  hum : Option ℚ
  temp : Option ℚ
  ds : Option ℚ
deriving DecidableEq

/-- The body of one loop iteration of `SensorReader.read`: on a raise the
attempt fails; otherwise the DS18B20 value, when preferred and present,
overrides the primary temperature, and the attempt succeeds exactly when
both humidity and (possibly overridden) temperature are non-null. -/
def attemptOutcome (prefer_ds18b20 : Bool) (a : Attempt) : Option (ℚ × ℚ) :=
  if a.raises then none
  else
    let temp :=
      if prefer_ds18b20 then
        match a.ds with
        | some t_ds => some t_ds
        | none => a.temp
      else a.temp
    match a.hum, temp with
    | some hu, some t => some (t, hu)
    | _, _ => none

/-- The retry loop of `SensorReader.read` over a list of attempt
environments: returns the first successful value together with the number
of attempts executed and the number of sleeps taken (the source sleeps
after every failed attempt and breaks before the sleep on success). -/
def readLoop (prefer_ds18b20 : Bool) : List Attempt → Option (ℚ × ℚ) × ℕ × ℕ
  | [] => (none, 0, 0)
  | a :: rest =>
    match attemptOutcome prefer_ds18b20 a with
    | some v => (some v, 1, 0)
    | none =>
      let r := readLoop prefer_ds18b20 rest
      (r.1, r.2.1 + 1, r.2.2 + 1)

/-- The attempt environments consumed by `read(retries, ...)`: the source
iterates `for _ in range(max(1, retries))`. -/
def attemptsOf (retries : ℕ) (env : ℕ → Attempt) : List Attempt :=
  (List.range (max 1 retries)).map env

/-- `SensorReader.read(retries, delay_s)`: run the bounded retry loop and
round the successful pair to one decimal; `none` models the final
`RuntimeError` (SensorUnavailable) raised when every attempt failed. -/
def SensorReader.read (prefer_ds18b20 : Bool) (retries : ℕ) (env : ℕ → Attempt) :
    Option (ℚ × ℚ) :=
  match (readLoop prefer_ds18b20 (attemptsOf retries env)).1 with
  | some (t, hu) => some (round1 t, round1 hu)
  | none => none

/-- Number of attempts `read` actually executes. -/
def readAttemptCount (prefer_ds18b20 : Bool) (retries : ℕ) (env : ℕ → Attempt) : ℕ :=
  (readLoop prefer_ds18b20 (attemptsOf retries env)).2.1

/-- Number of `time.sleep(delay_s)` calls `read` performs. -/
def readSleepCount (prefer_ds18b20 : Bool) (retries : ℕ) (env : ℕ → Attempt) : ℕ :=
  (readLoop prefer_ds18b20 (attemptsOf retries env)).2.2

/-- An attempt where the DHT access raises. -/
def failAttempt : Attempt := { raises := true, hum := none, temp := none, ds := none }

/-- An attempt returning humidity 55 and temperature 21. -/
def okAttempt : Attempt := { raises := false, hum := some 55, temp := some 21, ds := none }

/-- Environment whose first two attempts fail and whose third succeeds. -/
def env3 : ℕ → Attempt := fun i => if i = 2 then okAttempt else failAttempt

/-- An attempt with both a primary (DHT22) temperature and a reachable
DS18B20 value. -/
def dsAttempt : Attempt := { raises := false, hum := some 50, temp := some 7, ds := some 3 }

/-- Failure switches of the SMTP conversation inside `send_email_alert`:
creating the connection, `starttls`, `login`, `sendmail`, and the final
`server.quit()`. -/
structure SmtpEnv where
  connectErr : Bool
  starttlsErr : Bool
  loginErr : Bool
  sendErr : Bool
  quitErr : Bool
deriving DecidableEq

/-- An SMTP conversation in which nothing fails. -/
def benignSmtp : SmtpEnv :=
  { connectErr := false, starttlsErr := false, loginErr := false,
    sendErr := false, quitErr := false }

/-- An SMTP conversation whose send and final `quit()` fail. -/
def quitFailSmtp : SmtpEnv :=
  { connectErr := false, starttlsErr := false, loginErr := false,
    sendErr := true, quitErr := true }

/-- `send_email_alert` of `delta.py` 345-379: the try block catches every
error of connect/starttls/login/sendmail (returning whether one was
logged), but the `finally` block calls `server.quit()` unguarded whenever
the server object was created, so an error there escapes the function. -/
def send_email_alert (e : SmtpEnv) : Except Unit Bool :=
  if e.connectErr then Except.ok true
  else
    let logged := e.starttlsErr || e.loginErr || e.sendErr
    if e.quitErr then Except.error ()
    else Except.ok logged

/-- `send_email_alert` of `main6.py` 78-112: identical, except the
`finally` block wraps `server.quit()` in its own try/except, so the
function never raises; returns whether an error was logged. -/
def send_email_alert6 (e : SmtpEnv) : Bool :=
  e.connectErr || e.starttlsErr || e.loginErr || e.sendErr

/-- A record committed to the history store. -/
inductive DBRec where
  | reading (temperature humidity : ℚ)
  | alert (message : String)
deriving DecidableEq

/-- `add_data` of `delta.py` 466-487 (the manual-entry endpoint), as a
function of the parsed form floats (none = `float(...)` raised), the
external temperature extracted from the weather snapshot, whether the
commit raises, the SMTP environment, and the store contents: the reading
is added to the session, the verdict computed, on an anomaly the email is
sent and the alert added, and one commit persists everything; any
exception rolls the session back, leaving the store unchanged, and
returns the error status. -/
def add_data (temperature humidity : Option ℚ) (external_temp : Option ℚ)
    (commitErr : Bool) (smtp : SmtpEnv) (store : List DBRec) :
    List DBRec × Bool :=
  match temperature, humidity with
  | some t, some hu =>
    let verdict := detect_anomaly t hu external_temp
    let emailStep : Except Unit Bool :=
      if verdict.1 = true then send_email_alert smtp else Except.ok false
    match emailStep with
    | Except.error _ => (store, false)
    | Except.ok _ =>
      if commitErr = true then (store, false)
      else
        (store ++ DBRec.reading t hu ::
          (if verdict.1 = true then [DBRec.alert verdict.2] else []), true)
  | _, _ => (store, false)

/-- What the outside world does during one cycle of
`main6._background_reader`: the device that `_try_init_sensor` would
adopt (none = every candidate pin fails), whether the DHT read raises,
the two values it returns, the external temperature of the weather
snapshot (none = fetch error), whether the DB commit raises, and the
SMTP environment. -/
structure CycleEnv where
  initResult : Option ℕ
  readRaises : Bool
  hum : Option ℚ
  temp : Option ℚ
  weather : Option ℚ
  commitErr : Bool
  smtp : SmtpEnv
deriving DecidableEq

/-- Observable outcome of one cycle of `_background_reader`. -/
structure CycleResult where
  discovered : Bool
  skipped : Bool
  committed : Bool
  persisted : Option (ℚ × ℚ)
  alertMsg : Option String
  notifLogged : Bool
  errorLogged : Bool
  endedEarly : Bool
  slept : Bool
deriving DecidableEq

/-- One iteration of the `while True` loop of `main6._background_reader`
(330-371): discovery runs only when no handle exists; a still-missing
handle skips the cycle with a warning; a raising or null read is caught
by the enclosing `except`, logged and rolled back; otherwise the weather
is fetched (an error degrades to no adjustment), the reading persisted,
an anomaly alert recorded and mailed (the main6 notifier never raises),
and the commit ends the cycle; the `finally` block always sleeps. The
sensor handle is only ever written by successful discovery. -/
def cycleStep (sensor : Option ℕ) (env : CycleEnv) : Option ℕ × CycleResult :=
  let disc := sensor.isNone
  let sensor1 :=
    match sensor with
    | none => env.initResult
    | some d => some d
  match sensor1 with
  | none =>
    (none,
      { discovered := disc, skipped := true, committed := false,
        persisted := none, alertMsg := none, notifLogged := false,
        errorLogged := false, endedEarly := true, slept := true })
  | some d =>
    if env.readRaises then
      (some d,
        { discovered := disc, skipped := false, committed := false,
          persisted := none, alertMsg := none, notifLogged := false,
          errorLogged := true, endedEarly := true, slept := true })
    else
      match env.hum, env.temp with
      | some hu, some t =>
        let verdict := detect_anomaly t hu env.weather
        let nl := if verdict.1 = true then send_email_alert6 env.smtp else false
        if env.commitErr then
          (some d,
            { discovered := disc, skipped := false, committed := false,
              persisted := none, alertMsg := none, notifLogged := nl,
              errorLogged := true, endedEarly := true, slept := true })
        else
          (some d,
            { discovered := disc, skipped := false, committed := true,
              persisted := some (t, hu),
              alertMsg := if verdict.1 = true then some verdict.2 else none,
              notifLogged := nl, errorLogged := false,
              endedEarly := false, slept := true })
      | _, _ =>
        (some d,
          { discovered := disc, skipped := false, committed := false,
            persisted := none, alertMsg := none, notifLogged := false,
            errorLogged := true, endedEarly := true, slept := true })

/-- The perpetual loop, run for the given list of cycle environments. -/
def runCycles : Option ℕ → List CycleEnv → Option ℕ × List CycleResult
  | s, [] => (s, [])
  | s, e :: rest =>
    let step := cycleStep s e
    let next := runCycles step.1 rest
    (next.1, step.2 :: next.2)

/-- A cycle whose sensor read succeeds but whose weather fetch errors. -/
def envWeatherFail : CycleEnv :=
  { initResult := none, readRaises := false, hum := some 92, temp := some 3,
    weather := none, commitErr := false, smtp := benignSmtp }

/-- A cycle whose sensor read raises. -/
def envReadFail : CycleEnv :=
  { initResult := none, readRaises := true, hum := none, temp := none,
    weather := none, commitErr := false, smtp := benignSmtp }

/-- A cycle whose read yields values far outside every envelope. -/
def envOutOfRange : CycleEnv :=
  { initResult := none, readRaises := false, hum := some 150, temp := some 999,
    weather := none, commitErr := false, smtp := benignSmtp }

theorem spoilage_strain_cond (e : ℚ) :
    ((pyTruthy e = true ∧ 25 < e) ↔ 25 < e) := by
  simp only [pyTruthy, bne_iff_ne, ne_eq]
  constructor
  · exact fun hc => hc.2
  · intro h25
    exact ⟨ne_of_gt (lt_trans (by norm_num) h25), h25⟩

theorem spoilage_score_closed (t h : ℚ) (oe : Option ℚ) :
    spoilage_score t h oe =
        (if 4 < t then (t - 4) * 10 else 0)
      + (if t < 0 then |t| * 15 else 0)
      + (if 95 < h then (h - 95) * 5 else 0)
      + (if h < 85 then (85 - h) * 5 else 0)
      + (match oe with
         | some e => if 25 < e then (e - 25) * (3/2) else 0
         | none => 0) := by
  cases oe with
  | none =>
    simp only [spoilage_score]
    split_ifs <;> ring
  | some e =>
    simp only [spoilage_score, spoilage_strain_cond]
    split_ifs <;> ring

theorem bucket_iffs (s : ℚ) :
    ((if 70 < s then "High" else if 30 < s then "Medium" else "Low") = "High"
        ↔ 70 < s)
    ∧ ((if 70 < s then "High" else if 30 < s then "Medium" else "Low") = "Medium"
        ↔ 30 < s ∧ s ≤ 70)
    ∧ ((if 70 < s then "High" else if 30 < s then "Medium" else "Low") = "Low"
        ↔ s ≤ 30) := by
  split_ifs with h1 h2
  · refine ⟨⟨fun _ => h1, fun _ => rfl⟩, ⟨fun hx => absurd hx (by decide), ?_⟩,
      ⟨fun hx => absurd hx (by decide), fun hx => absurd h1 (by linarith)⟩⟩
    rintro ⟨_, hle⟩
    exact absurd h1 (by linarith)
  · refine ⟨⟨fun hx => absurd hx (by decide), fun hx => absurd hx h1⟩,
      ⟨fun _ => ⟨h2, le_of_not_lt h1⟩, fun _ => rfl⟩,
      ⟨fun hx => absurd hx (by decide), fun hx => absurd h2 (by linarith)⟩⟩
  · refine ⟨⟨fun hx => absurd hx (by decide), fun hx => absurd hx h1⟩,
      ⟨fun hx => absurd hx (by decide), fun hx => absurd hx.1 h2⟩,
      ⟨fun _ => le_of_not_lt h2, fun _ => rfl⟩⟩

/-- C2: `predict_spoilage` computes the additive deviation score (terms for
temperature above 4 or below 0, humidity above 95 or below 85, and a truthy
external temperature above 25), then buckets it: High iff score > 70,
Medium iff 30 < score ≤ 70, Low iff score ≤ 30; with the three documented
example evaluations. -/
theorem predict_spoilage_spec (t h : ℚ) (oe : Option ℚ) :
    spoilage_score t h oe =
        (if 4 < t then (t - 4) * 10 else 0)
      + (if t < 0 then |t| * 15 else 0)
      + (if 95 < h then (h - 95) * 5 else 0)
      + (if h < 85 then (85 - h) * 5 else 0)
      + (match oe with
         | some e => if 25 < e then (e - 25) * (3/2) else 0
         | none => 0)
    ∧ (predict_spoilage t h oe = "High" ↔ 70 < spoilage_score t h oe)
    ∧ (predict_spoilage t h oe = "Medium" ↔
        30 < spoilage_score t h oe ∧ spoilage_score t h oe ≤ 70)
    ∧ (predict_spoilage t h oe = "Low" ↔ spoilage_score t h oe ≤ 30)
    ∧ predict_spoilage 6 92 none = "Low"
    ∧ predict_spoilage 10 92 none = "Medium"
    ∧ predict_spoilage 10 98 (some 30) = "High" := by
  have hb := bucket_iffs (spoilage_score t h oe)
  exact ⟨spoilage_score_closed t h oe, hb.1, hb.2.1, hb.2.2,
    by decide, by decide, by decide⟩

/-- C1: `detect_anomaly` uses `adjustedTempMax` = 4 when no external
temperature is present or it is at most 20 °C, and
`4 + ((externalTemp - 20) / 5) * 0.1` when it exceeds 20 °C, and reports an
anomaly exactly when temperature leaves `[0, adjustedTempMax]` or humidity
leaves `[90, 95]`; readings inside both base envelopes with no external
temperature are never anomalous, and (3 °C, 92 %, external 30 °C) is normal
with `adjustedTempMax = 4.2`. -/
theorem detect_anomaly_envelope (t h et : ℚ) :
    adjustedTempMax none = 4
    ∧ (et ≤ 20 → adjustedTempMax (some et) = 4)
    ∧ (20 < et → adjustedTempMax (some et) = 4 + ((et - 20) / 5) * (1/10))
    ∧ (∀ oe : Option ℚ, ((detect_anomaly t h oe).1 = true ↔
        (¬ ((0:ℚ) ≤ t ∧ t ≤ adjustedTempMax oe) ∨ ¬ ((90:ℚ) ≤ h ∧ h ≤ 95))))
    ∧ (0 ≤ t → t ≤ 4 → 90 ≤ h → h ≤ 95 → (detect_anomaly t h none).1 = false)
    ∧ (detect_anomaly 3 92 (some 30)).1 = false
    ∧ adjustedTempMax (some 30) = 42 / 10 := by
  have hiff : ∀ oe : Option ℚ, ((detect_anomaly t h oe).1 = true ↔
      (¬ ((0:ℚ) ≤ t ∧ t ≤ adjustedTempMax oe) ∨ ¬ ((90:ℚ) ≤ h ∧ h ≤ 95))) := by
    intro oe
    by_cases h1 : ((0:ℚ) ≤ t ∧ t ≤ adjustedTempMax oe) <;>
      by_cases h2 : ((90:ℚ) ≤ h ∧ h ≤ 95) <;>
        simp [detect_anomaly, h1, h2]
  refine ⟨by decide, ?_, ?_, hiff, ?_, by decide, by decide⟩
  · intro hle
    have hcond : ¬ (pyTruthy et = true ∧ 20 < et) := by
      rintro ⟨-, hgt⟩
      exact absurd hgt (not_lt.mpr hle)
    simp [adjustedTempMax, hcond]
  · intro hgt
    have htr : pyTruthy et = true := by
      simp only [pyTruthy, bne_iff_ne, ne_eq]
      exact ne_of_gt (lt_trans (by norm_num) hgt)
    simp [adjustedTempMax, htr, hgt]
  · intro h0 h4 h90 h95
    have h4m : adjustedTempMax none = 4 := by decide
    cases hB : (detect_anomaly t h none).1 with
    | false => rfl
    | true =>
      rcases (hiff none).mp hB with hc | hc
      · exact absurd ⟨h0, by rw [h4m]; exact h4⟩ hc
      · exact absurd ⟨h90, h95⟩ hc

theorem detect_anomaly_envelope_w :
    adjustedTempMax (some 15) = 4
    ∧ adjustedTempMax (some 30) = 4 + (((30:ℚ) - 20) / 5) * (1/10)
    ∧ (detect_anomaly 2 91 none).1 = false := by
  have h15 := detect_anomaly_envelope 2 91 15
  have h30 := detect_anomaly_envelope 2 91 30
  exact ⟨h15.2.1 (by norm_num), h30.2.2.1 (by norm_num),
    h15.2.2.2.2.1 (by norm_num) (by norm_num) (by norm_num) (by norm_num)⟩

/-- C7 (amended): when the temperature leaves its envelope, the reason is the
temperature message regardless of humidity (temperature precedence, exactly
one reason); temperature bounds are rendered with the fixed one-decimal
format `fmt1`; the humidity reason, however, renders its bounds as the bare
integers 90 and 95. The documented example (4.5 °C, 92 %, no external
temperature) yields the reason citing the range 0.0 °C - 4.0 °C. -/
theorem anomaly_reason_precedence (t h : ℚ) (oe : Option ℚ) :
    (¬ ((0:ℚ) ≤ t ∧ t ≤ adjustedTempMax oe) →
      (detect_anomaly t h oe).2 =
        "Temperature " ++ pyStr t ++ "°C is out of the acceptable range (" ++
          fmt1 0 ++ "°C - " ++ fmt1 (adjustedTempMax oe) ++ "°C).")
    ∧ (((0:ℚ) ≤ t ∧ t ≤ adjustedTempMax oe) → ¬ ((90:ℚ) ≤ h ∧ h ≤ 95) →
      (detect_anomaly t h oe).2 =
        "Humidity " ++ pyStr h ++ "% is out of the acceptable range (" ++
          toString (90:ℕ) ++ "% - " ++ toString (95:ℕ) ++ "%).")
    ∧ detect_anomaly (9/2) 92 none =
        (true, "Temperature 4.5°C is out of the acceptable range (0.0°C - 4.0°C).")
    ∧ fmt1 0 = "0.0" ∧ fmt1 (adjustedTempMax none) = "4.0" := by
  refine ⟨?_, ?_, by decide, by decide, by decide⟩
  · intro h1
    simp [detect_anomaly, h1]
  · intro h1 h2
    simp [detect_anomaly, h1, h2]

theorem anomaly_reason_precedence_w :
    (detect_anomaly 5 92 none).2 =
      "Temperature " ++ pyStr 5 ++ "°C is out of the acceptable range (" ++
        fmt1 0 ++ "°C - " ++ fmt1 (adjustedTempMax none) ++ "°C)."
    ∧ (detect_anomaly 3 89 none).2 =
      "Humidity " ++ pyStr 89 ++ "% is out of the acceptable range (" ++
        toString (90:ℕ) ++ "% - " ++ toString (95:ℕ) ++ "%)." :=
  ⟨(anomaly_reason_precedence 5 92 none).1 (by decide),
   (anomaly_reason_precedence 3 89 none).2.1 (by decide) (by decide)⟩

theorem humidity_bounds_format_cx :
    detect_anomaly 3 89 none =
      (true, "Humidity 89.0% is out of the acceptable range (90% - 95%).")
    ∧ hasSub "90.0" (detect_anomaly 3 89 none).2 = false
    ∧ hasSub "95.0" (detect_anomaly 3 89 none).2 = false
    ∧ hasSub "90%" (detect_anomaly 3 89 none).2 = true := by decide

/-- C10: a reading can be anomalous while carrying zero spoilage risk:
at (3 °C, 89 %, no external temperature) the humidity lies below the
anomaly envelope `[90, 95]`, yet humidity in `(85, 90)` contributes nothing
to the spoilage score, so the risk is Low with score 0. -/
theorem anomaly_without_spoilage :
    (detect_anomaly 3 89 none).1 = true
    ∧ predict_spoilage 3 89 none = "Low"
    ∧ spoilage_score 3 89 none = 0
    ∧ ((85:ℚ) < 89 ∧ (89:ℚ) < 90) := by decide

theorem readLoop_attempts_le (p : Bool) (l : List Attempt) :
    (readLoop p l).2.1 ≤ l.length := by
  induction l with
  | nil => simp [readLoop]
  | cons a rest ih =>
    cases hx : attemptOutcome p a with
    | some v => simp [readLoop, hx]
    | none =>
      simp only [readLoop, hx, List.length_cons]
      exact Nat.succ_le_succ ih

theorem readLoop_none_iff (p : Bool) (l : List Attempt) :
    (readLoop p l).1 = none ↔ ∀ a ∈ l, attemptOutcome p a = none := by
  induction l with
  | nil => simp [readLoop]
  | cons a rest ih =>
    cases hx : attemptOutcome p a with
    | some v => simp [readLoop, hx]
    | none => simp [readLoop, hx, ih]

theorem readLoop_all_fail (p : Bool) (l : List Attempt)
    (hall : ∀ a ∈ l, attemptOutcome p a = none) :
    readLoop p l = (none, l.length, l.length) := by
  induction l with
  | nil => simp [readLoop]
  | cons a rest ih =>
    have h0 : attemptOutcome p a = none := hall a (by simp)
    have ih2 := ih (fun b hb => hall b (by simp [hb]))
    simp [readLoop, h0, ih2]

theorem readLoop_first_success (p : Bool) :
    ∀ (l : List Attempt) (i : ℕ) (hi : i < l.length) (v : ℚ × ℚ),
      (∀ j (hj : j < l.length), j < i → attemptOutcome p (l.get ⟨j, hj⟩) = none) →
      attemptOutcome p (l.get ⟨i, hi⟩) = some v →
      readLoop p l = (some v, i + 1, i) := by
  intro l
  induction l with
  | nil =>
    intro i hi
    exact absurd hi (by simp)
  | cons a rest ih =>
    intro i hi v hfail hsucc
    cases i with
    | zero =>
      have ha : attemptOutcome p a = some v := hsucc
      simp [readLoop, ha]
    | succ n =>
      have h0 : attemptOutcome p a = none :=
        hfail 0 (by simp) (Nat.succ_pos n)
      have hrest := ih n (by simpa using hi) v
        (fun j hj hjn => by
          have := hfail (j + 1) (by simpa using hj) (Nat.succ_lt_succ hjn)
          simpa using this)
        (by simpa using hsucc)
      simp [readLoop, h0, hrest]

theorem attemptsOf_length (retries : ℕ) (env : ℕ → Attempt) :
    (attemptsOf retries env).length = max 1 retries := by
  simp [attemptsOf]

theorem attemptsOf_get (retries : ℕ) (env : ℕ → Attempt) (i : ℕ)
    (h : i < (attemptsOf retries env).length) :
    (attemptsOf retries env).get ⟨i, h⟩ = env i := by
  simp [attemptsOf]

theorem attemptsOf_forall (p : Bool) (retries : ℕ) (env : ℕ → Attempt) :
    (∀ a ∈ attemptsOf retries env, attemptOutcome p a = none) ↔
      ∀ i, i < max 1 retries → attemptOutcome p (env i) = none := by
  constructor
  · intro hall i hilt
    have hmem : env i ∈ attemptsOf retries env := by
      unfold attemptsOf
      exact List.mem_map_of_mem env (List.mem_range.mpr hilt)
    exact hall (env i) hmem
  · intro hall a ha
    rcases List.mem_map.mp ha with ⟨i, hi, rfl⟩
    exact hall i (by simpa using hi)

theorem read_none_iff (p : Bool) (retries : ℕ) (env : ℕ → Attempt) :
    SensorReader.read p retries env = none ↔
      (readLoop p (attemptsOf retries env)).1 = none := by
  unfold SensorReader.read
  cases hx : (readLoop p (attemptsOf retries env)).1 with
  | none => simp [hx]
  | some v =>
    cases v with
    | mk t hu => simp [hx]

/-- C3 (amended): `SensorReader.read` performs at most `max 1 retries`
attempts (the source floors the budget at one attempt via
`range(max(1, retries))`); it fails with SensorUnavailable iff all
`max 1 retries` attempts yield a null value or an error; on the first
successful attempt it stops immediately and returns that attempt's values
rounded to one decimal, having slept exactly once after each preceding
failed attempt; and when every attempt fails it has slept after each of
them. -/
theorem read_bounded_retry (p : Bool) (retries : ℕ) (env : ℕ → Attempt) :
    readAttemptCount p retries env ≤ max 1 retries
    ∧ (SensorReader.read p retries env = none ↔
        ∀ i, i < max 1 retries → attemptOutcome p (env i) = none)
    ∧ (∀ i t hu, i < max 1 retries →
        (∀ j, j < i → attemptOutcome p (env j) = none) →
        attemptOutcome p (env i) = some (t, hu) →
        SensorReader.read p retries env = some (round1 t, round1 hu)
        ∧ readAttemptCount p retries env = i + 1
        ∧ readSleepCount p retries env = i)
    ∧ ((∀ i, i < max 1 retries → attemptOutcome p (env i) = none) →
        SensorReader.read p retries env = none
        ∧ readAttemptCount p retries env = max 1 retries
        ∧ readSleepCount p retries env = max 1 retries) := by
  refine ⟨?_, ?_, ?_, ?_⟩
  · have hle := readLoop_attempts_le p (attemptsOf retries env)
    rw [attemptsOf_length] at hle
    exact hle
  · rw [read_none_iff, readLoop_none_iff, attemptsOf_forall]
  · intro i t hu hilt hfail hsucc
    have hi : i < (attemptsOf retries env).length := by
      rw [attemptsOf_length]
      exact hilt
    have hloop := readLoop_first_success p (attemptsOf retries env) i hi (t, hu)
      (fun j hj hjlt => by rw [attemptsOf_get]; exact hfail j hjlt)
      (by rw [attemptsOf_get]; exact hsucc)
    exact ⟨by simp [SensorReader.read, hloop],
      by simp [readAttemptCount, hloop], by simp [readSleepCount, hloop]⟩
  · intro hall
    have hloop := readLoop_all_fail p (attemptsOf retries env)
      ((attemptsOf_forall p retries env).mpr hall)
    rw [attemptsOf_length] at hloop
    exact ⟨by simp [SensorReader.read, hloop],
      by simp [readAttemptCount, hloop], by simp [readSleepCount, hloop]⟩

theorem read_bounded_retry_w :
    SensorReader.read false 3 env3 = some (round1 21, round1 55)
    ∧ readAttemptCount false 3 env3 = 3
    ∧ readSleepCount false 3 env3 = 2 := by
  have h := (read_bounded_retry false 3 env3).2.2.1 2 21 55 (by norm_num)
    (by
      intro j hj
      interval_cases j <;> decide)
    (by decide)
  exact ⟨h.1, h.2.1, h.2.2⟩

theorem read_attempt_floor_cx :
    readAttemptCount false 0 (fun _ => failAttempt) = 1
    ∧ ¬ (readAttemptCount false 0 (fun _ => failAttempt) ≤ 0)
    ∧ SensorReader.read false 0 (fun _ => failAttempt) = none := by decide

/-- C8: within an acquisition attempt, when DS18B20 is preferred and its
1-Wire read yields a value, that value overrides the primary DHT22
temperature in what `read` returns; when it is not preferred, or preferred
but unreachable, the primary temperature is returned. -/
theorem ds18b20_override (a : Attempt) (hu td tp : ℚ) (retries : ℕ)
    (env : ℕ → Attempt) :
    (a.raises = false → a.hum = some hu → a.ds = some td →
      attemptOutcome true a = some (td, hu))
    ∧ (a.raises = false → a.hum = some hu → a.temp = some tp → a.ds = none →
      attemptOutcome true a = some (tp, hu))
    ∧ (a.raises = false → a.hum = some hu → a.temp = some tp →
      attemptOutcome false a = some (tp, hu))
    ∧ (env 0 = a → a.raises = false → a.hum = some hu → a.ds = some td →
      SensorReader.read true retries env = some (round1 td, round1 hu))
    ∧ (env 0 = a → a.raises = false → a.hum = some hu → a.temp = some tp →
      a.ds = none →
      SensorReader.read true retries env = some (round1 tp, round1 hu)) := by
  have hread : ∀ v : ℚ × ℚ, attemptOutcome true (env 0) = some v →
      SensorReader.read true retries env = some (round1 v.1, round1 v.2) := by
    intro v hv
    have h0 : (0:ℕ) < (attemptsOf retries env).length := by
      rw [attemptsOf_length]
      exact lt_of_lt_of_le one_pos (le_max_left 1 retries)
    have hloop := readLoop_first_success true (attemptsOf retries env) 0 h0 v
      (fun j hj hjlt => absurd hjlt (Nat.not_lt_zero j))
      (by rw [attemptsOf_get]; exact hv)
    simp [SensorReader.read, hloop]
  refine ⟨?_, ?_, ?_, ?_, ?_⟩
  · intro hr hh hd
    simp [attemptOutcome, hr, hh, hd]
  · intro hr hh ht hd
    simp [attemptOutcome, hr, hh, ht, hd]
  · intro hr hh ht
    simp [attemptOutcome, hr, hh, ht]
  · intro he hr hh hd
    exact hread (td, hu) (by rw [he]; simp [attemptOutcome, hr, hh, hd])
  · intro he hr hh ht hd
    exact hread (tp, hu) (by rw [he]; simp [attemptOutcome, hr, hh, ht, hd])

theorem ds18b20_override_w :
    attemptOutcome true dsAttempt = some (3, 50)
    ∧ attemptOutcome false dsAttempt = some (7, 50)
    ∧ SensorReader.read true 3 (fun _ => dsAttempt) = some (round1 3, round1 50) := by
  have h := ds18b20_override dsAttempt 50 3 7 3 (fun _ => dsAttempt)
  exact ⟨h.1 rfl rfl rfl, h.2.2.1 rfl rfl rfl, h.2.2.2.1 rfl rfl rfl rfl⟩

theorem cycleStep_slept (s : Option ℕ) (env : CycleEnv) :
    (cycleStep s env).2.slept = true := by
  obtain ⟨ir, rr, hm, tp, w, ce, sm⟩ := env
  cases s <;> cases ir <;> cases rr <;> cases hm <;> cases tp <;> cases ce <;>
    simp [cycleStep]

theorem cycleStep_keeps_handle (d : ℕ) (env : CycleEnv) :
    (cycleStep (some d) env).1 = some d := by
  obtain ⟨ir, rr, hm, tp, w, ce, sm⟩ := env
  cases rr <;> cases hm <;> cases tp <;> cases ce <;> simp [cycleStep]

theorem cycleStep_no_rescan (d : ℕ) (env : CycleEnv) :
    (cycleStep (some d) env).2.discovered = false := by
  obtain ⟨ir, rr, hm, tp, w, ce, sm⟩ := env
  cases rr <;> cases hm <;> cases tp <;> cases ce <;> simp [cycleStep]

theorem runCycles_length (s : Option ℕ) (envs : List CycleEnv) :
    (runCycles s envs).2.length = envs.length := by
  induction envs generalizing s with
  | nil => simp [runCycles]
  | cons e rest ih => simp [runCycles, ih]

theorem runCycles_slept (s : Option ℕ) (envs : List CycleEnv) :
    ∀ r ∈ (runCycles s envs).2, r.slept = true := by
  induction envs generalizing s with
  | nil => simp [runCycles]
  | cons e rest ih =>
    intro r hr
    simp only [runCycles, List.mem_cons] at hr
    rcases hr with rfl | hr
    · exact cycleStep_slept s e
    · exact ih (cycleStep s e).1 r hr

/-- C4 (amended): the background loop executes one full iteration per cycle
environment and always sleeps the interval before the next cycle — no
per-cycle failure terminates it; a raising read, a null reading, or a
failing commit is caught, logged and ends the cycle early; an exhausted
discovery skips the cycle; but a weather fetch error or a notifier error
does NOT end the cycle early: the reading is still analyzed without
external adjustment and committed. -/
theorem background_loop_spec (s : Option ℕ) (envs : List CycleEnv) (d : ℕ)
    (hu t : ℚ) (env : CycleEnv) :
    (runCycles s envs).2.length = envs.length
    ∧ (∀ r ∈ (runCycles s envs).2, r.slept = true)
    ∧ (cycleStep s env).2.slept = true
    ∧ (env.readRaises = true →
        (cycleStep (some d) env).2.errorLogged = true
        ∧ (cycleStep (some d) env).2.endedEarly = true)
    ∧ (env.readRaises = false → env.hum = none →
        (cycleStep (some d) env).2.errorLogged = true
        ∧ (cycleStep (some d) env).2.endedEarly = true)
    ∧ (env.readRaises = false → env.hum = some hu → env.temp = some t →
        env.commitErr = true →
        (cycleStep (some d) env).2.errorLogged = true
        ∧ (cycleStep (some d) env).2.endedEarly = true)
    ∧ (env.initResult = none →
        (cycleStep none env).2.skipped = true
        ∧ (cycleStep none env).2.endedEarly = true
        ∧ (cycleStep none env).1 = none)
    ∧ (env.readRaises = false → env.hum = some hu → env.temp = some t →
        env.commitErr = false →
        (cycleStep (some d) env).2.committed = true
        ∧ (cycleStep (some d) env).2.endedEarly = false) := by
  refine ⟨runCycles_length s envs, runCycles_slept s envs, cycleStep_slept s env,
    ?_, ?_, ?_, ?_, ?_⟩
  · intro hr
    constructor <;> simp [cycleStep, hr]
  · intro hr hh
    constructor <;> simp [cycleStep, hr, hh]
  · intro hr hh ht hc
    constructor <;> simp [cycleStep, hr, hh, ht, hc]
  · intro hi
    refine ⟨?_, ?_, ?_⟩ <;> simp [cycleStep, hi]
  · intro hr hh ht hc
    constructor <;> simp [cycleStep, hr, hh, ht, hc]

theorem background_loop_spec_w :
    (runCycles none [envWeatherFail]).2.length = 1
    ∧ (cycleStep (some 0) envWeatherFail).2.committed = true
    ∧ (cycleStep (some 0) envWeatherFail).2.endedEarly = false := by
  have h := background_loop_spec none [envWeatherFail] 0 92 3 envWeatherFail
  have h8 := h.2.2.2.2.2.2.2 rfl rfl rfl rfl
  exact ⟨h.1, h8.1, h8.2⟩

theorem weather_error_continues_cx :
    envWeatherFail.weather = none
    ∧ (cycleStep (some 0) envWeatherFail).2.committed = true
    ∧ (cycleStep (some 0) envWeatherFail).2.endedEarly = false
    ∧ (cycleStep (some 0) envWeatherFail).2.errorLogged = false
    ∧ (cycleStep (some 0) envWeatherFail).2.slept = true := by decide

/-- C5 (amended): once a device handle has been adopted, every cycle —
including one whose read fails — retains it (`main6` never clears the
handle), and no re-discovery happens while it exists: a failed read skips
the cycle non-fatally (logged, slept) but the next cycle reuses the same
handle without re-scanning, exactly as successful cycles do. -/
theorem sensor_handle_reuse (d : ℕ) (env env2 : CycleEnv) :
    (cycleStep (some d) env).1 = some d
    ∧ (cycleStep (some d) env).2.discovered = false
    ∧ (cycleStep ((cycleStep (some d) env).1) env2).2.discovered = false
    ∧ (env.readRaises = true →
        (cycleStep (some d) env).2.errorLogged = true
        ∧ (cycleStep (some d) env).2.slept = true
        ∧ (cycleStep (some d) env).2.committed = false) := by
  refine ⟨cycleStep_keeps_handle d env, cycleStep_no_rescan d env, ?_, ?_⟩
  · rw [cycleStep_keeps_handle d env]
    exact cycleStep_no_rescan d env2
  · intro hr
    refine ⟨?_, ?_, ?_⟩ <;> simp [cycleStep, hr]

theorem sensor_handle_reuse_w :
    (cycleStep (some 7) envReadFail).1 = some 7
    ∧ (cycleStep (some 7) envReadFail).2.errorLogged = true := by
  have h := sensor_handle_reuse 7 envReadFail envReadFail
  exact ⟨h.1, (h.2.2.2 rfl).1⟩

theorem sensor_handle_not_cleared_cx :
    (cycleStep (some 7) envReadFail).2.errorLogged = true
    ∧ ¬ ((cycleStep (some 7) envReadFail).1 = none)
    ∧ (cycleStep ((cycleStep (some 7) envReadFail).1) envReadFail).2.discovered
        = false := by decide

/-- C9 (amended): on the manual-entry path the Reading and any AlertRecord
are persisted atomically by the single commit — on any failure the session
is rolled back, the store is unchanged and an error status returned;
SMTP failures of connect/starttls/login/sendmail are caught and logged
inside the notifier and never affect the outcome; but an error raised by
`server.quit()` in the notifier's `finally` block escapes it, aborts the
request and prevents both records from being stored. -/
theorem add_data_atomicity (t hu : ℚ) (ext : Option ℚ) (commitErr : Bool)
    (smtp : SmtpEnv) (store : List DBRec) :
    ((add_data (some t) (some hu) ext commitErr smtp store).2 = false →
      (add_data (some t) (some hu) ext commitErr smtp store).1 = store)
    ∧ ((add_data (some t) (some hu) ext commitErr smtp store).2 = true →
      commitErr = false
      ∧ (add_data (some t) (some hu) ext commitErr smtp store).1 =
          store ++ DBRec.reading t hu ::
            (if (detect_anomaly t hu ext).1 = true
              then [DBRec.alert (detect_anomaly t hu ext).2] else []))
    ∧ (smtp.quitErr = false →
      add_data (some t) (some hu) ext commitErr smtp store =
        add_data (some t) (some hu) ext commitErr benignSmtp store)
    ∧ (smtp.connectErr = false → smtp.quitErr = true →
      (detect_anomaly t hu ext).1 = true →
      (add_data (some t) (some hu) ext commitErr smtp store).2 = false
      ∧ (add_data (some t) (some hu) ext commitErr smtp store).1 = store) := by
  cases hv : (detect_anomaly t hu ext).1 <;>
  cases hc : smtp.connectErr <;>
  cases hq : smtp.quitErr <;>
  cases hk : commitErr <;>
    simp_all [add_data, send_email_alert, benignSmtp]

theorem add_data_atomicity_w :
    (add_data (some 10) (some 50) none false benignSmtp []).2 = true
    ∧ (add_data (some 10) (some 50) none false benignSmtp []).1 =
        [] ++ DBRec.reading 10 50 ::
          (if (detect_anomaly 10 50 none).1 = true
            then [DBRec.alert (detect_anomaly 10 50 none).2] else []) := by
  have h := (add_data_atomicity 10 50 none false benignSmtp []).2.1 (by decide)
  exact ⟨by decide, h.2⟩

theorem notifier_quit_blocks_commit_cx :
    (detect_anomaly 10 50 none).1 = true
    ∧ (add_data (some 10) (some 50) none false quitFailSmtp []).2 = false
    ∧ (add_data (some 10) (some 50) none false quitFailSmtp []).1 = []
    ∧ (add_data (some 10) (some 50) none false benignSmtp []).2 = true := by
  decide

/-- C6 (amended): persisted readings store the submitted or acquired values
unchanged and no range validation exists on either dimension: on the
manual path any parseable pair — humidity outside [0,100] included — is
committed, and on the scheduled path any values the sensor returns are
committed; out-of-range values are what anomaly detection flags, so they
are representable and stored, never rejected. -/
theorem persisted_values_unchecked (t hu : ℚ) (ext : Option ℚ) (smtp : SmtpEnv)
    (store : List DBRec) (d : ℕ) (env : CycleEnv) :
    (smtp.quitErr = false →
      (add_data (some t) (some hu) ext false smtp store).2 = true
      ∧ (add_data (some t) (some hu) ext false smtp store).1 =
          store ++ DBRec.reading t hu ::
            (if (detect_anomaly t hu ext).1 = true
              then [DBRec.alert (detect_anomaly t hu ext).2] else []))
    ∧ (env.readRaises = false → env.hum = some hu → env.temp = some t →
        env.commitErr = false →
        (cycleStep (some d) env).2.persisted = some (t, hu)
        ∧ (cycleStep (some d) env).2.committed = true) := by
  constructor
  · intro hq
    cases hv : (detect_anomaly t hu ext).1 <;>
    cases hc : smtp.connectErr <;>
      simp_all [add_data, send_email_alert]
  · intro hr hh ht hc
    constructor <;> simp [cycleStep, hr, hh, ht, hc]

theorem persisted_values_unchecked_w :
    (add_data (some 999) (some 150) none false benignSmtp []).2 = true
    ∧ (add_data (some 999) (some 150) none false benignSmtp []).1 =
        [] ++ DBRec.reading 999 150 ::
          (if (detect_anomaly 999 150 none).1 = true
            then [DBRec.alert (detect_anomaly 999 150 none).2] else [])
    ∧ (cycleStep (some 0) envOutOfRange).2.persisted = some (999, 150)
    ∧ (cycleStep (some 0) envOutOfRange).2.committed = true := by
  have h := persisted_values_unchecked 999 150 none benignSmtp [] 0 envOutOfRange
  have h1 := h.1 rfl
  have h2 := h.2 rfl rfl rfl rfl
  exact ⟨h1.1, h1.2, h2.1, h2.2⟩

theorem humidity_unbounded_cx :
    (add_data (some 5) (some 150) none false benignSmtp []).2 = true
    ∧ (add_data (some 5) (some 150) none false benignSmtp []).1 =
        [DBRec.reading 5 150, DBRec.alert (detect_anomaly 5 150 none).2]
    ∧ ¬ ((150:ℚ) ≤ 100) := by decide
